import Mathlib

/-!
# Verification of the kioto runtime core

A shallow embedding of `src/runtime.rs` and `src/context.rs` from the
`kioto` repository, together with theorems settling the behavioural
claims about the `Builder`/`Runtime` (and `Builder`/`Context`) lifecycle.

Modelling choices:

* Calls into the external presentation subsystem (`sys::init_video`,
  `sys::is_video_ready`, `sys::close_video`, `sys::begin_frame`,
  `sys::end_frame`) are recorded in an explicit trace of `SysCall` events,
  in the order the Rust code issues them.
* The subsystem's state is a single liveness bit (`SysState.videoLive`);
  whether `sys::init_video` succeeds is external to the program, so
  `Builder.build` takes that outcome as an oracle parameter `initOutcome`.
* `std::io::Error` is modelled by its kind and message. The conversion
  `From<NulError> for io::Error` used by the `?` on `CString::new`
  produces kind `InvalidInput` with message
  "data provided contains a nul byte"; the spec calls this class of
  error `InvalidConfiguration`.
* The `while` loop in `run_with` is embedded with explicit fuel; the
  loop returns `none` when the fuel runs out before the loop would have
  exited, and `some` of the final state (plus the trace of subsystem
  calls and the number of callback invocations performed inside the
  loop body) otherwise.
* Rust callbacks are `Fn` closures that may carry interior-mutable
  state; they are modelled as state-passing functions
  `Runtime → σ → Runtime × σ × Except IoError Unit`.
-/

/-- One call into the external presentation subsystem (raylib). -/
inductive SysCall where
  | initVideo (width height : Int) (title : String)
  | isVideoReady
  | closeVideo
  | beginFrame
  | endFrame
deriving DecidableEq, Repr

/-- The kind of a `std::io::Error` (only the kinds this crate produces). -/
inductive ErrorKind where
  | invalidInput
  | other
deriving DecidableEq, Repr

/-- A `std::io::Error`, modelled by kind and message. -/
structure IoError where
  kind : ErrorKind
  msg : String
deriving DecidableEq, Repr

/-- The error produced by `From<NulError> for std::io::Error`, i.e. by the
`?` on `ffi::CString::new` in `Builder::build`. The spec's taxonomy names
this `InvalidConfiguration`. -/
def nulError : IoError :=
  { kind := ErrorKind.invalidInput, msg := "data provided contains a nul byte" }

/-- The error built by `Builder::build` when the video driver reports
not-ready after initialization. The spec's taxonomy names this
`InitializationFailure`. -/
def initFailure : IoError :=
  { kind := ErrorKind.other, msg := "Unable to initialize video driver" }

/-- `CString::new` fails exactly when the byte string contains an interior
null byte; at the level of characters this is an occurrence of the
code-point-zero character. -/
def hasNulByte (s : String) : Bool :=
  s.data.any (fun c => c = Char.ofNat 0)

/-- State of the external video subsystem: whether a window is live. -/
structure SysState where
  videoLive : Bool
deriving DecidableEq, Repr

/-- `src/runtime.rs`: `pub struct Builder { title: String, enable_video: bool }`. -/
structure Builder where
  title : String
  enable_video : Bool
deriving DecidableEq, Repr

/-- `src/runtime.rs`: `pub struct Runtime { running: bool }`. -/
structure Runtime where
  running : Bool
deriving DecidableEq, Repr

/-- `Builder::new`: empty title, video disabled. -/
def Builder.new : Builder :=
  { title := "", enable_video := false }

/-- `Builder::title`: sets the pending title (named `setTitle` here because
the field is already called `title`). -/
def Builder.setTitle (b : Builder) (t : String) : Builder :=
  { b with title := t }

/-- `Builder::enable_video`. -/
def Builder.enableVideo (b : Builder) : Builder :=
  { b with enable_video := true }

/-- `Builder::build`. When video is enabled: convert the title with
`CString::new` (propagating its error with `?`), call
`sys::init_video(0, 0, title)`, query `sys::is_video_ready`, and fail if
the driver is not ready; otherwise return `Runtime { running: false }`.
`initOutcome` is the oracle for whether `sys::init_video` brought the
subsystem up. Returns the result, the subsystem state after the call and
the trace of subsystem calls made. -/
def Builder.build (b : Builder) (sys : SysState) (initOutcome : Bool) :
    Except IoError Runtime × SysState × List SysCall :=
  if b.enable_video then
    if hasNulByte b.title then
      (Except.error nulError, sys, [])
    else
      let sys1 : SysState := { videoLive := initOutcome }
      let is_ready := sys1.videoLive
      let calls := [SysCall.initVideo 0 0 b.title, SysCall.isVideoReady]
      if is_ready then
        (Except.ok { running := false }, sys1, calls)
      else
        (Except.error initFailure, sys1, calls)
  else
    (Except.ok { running := false }, sys, [])

/-- `Runtime::new`. -/
def Runtime.new : Runtime :=
  { running := false }

/-- `Runtime::shutdown`: sets `running` to false. -/
def Runtime.shutdown (r : Runtime) : Runtime :=
  { r with running := false }

/-- A per-tick callback: an `Fn(&mut Runtime) -> Result<(), io::Error>`
closure with interior-mutable captured state `σ`. -/
def Callback (σ : Type) : Type :=
  Runtime → σ → Runtime × σ × Except IoError Unit

/-- Whether a `Result` is `Ok` (Rust's `Result::is_ok`). -/
def resultIsOk (res : Except IoError Unit) : Bool :=
  match res with
  | Except.ok _ => true
  | Except.error _ => false

/-- Outcome of `Runtime::run_with`: the runtime and callback state at
return, the returned result, the trace of subsystem calls issued by the
loop, and how many callback invocations happened inside the loop body
(the total number of invocations is one more than this, for the
unconditional first call). -/
structure RunResult (σ : Type) where
  runtime : Runtime
  state : σ
  result : Except IoError Unit
  calls : List SysCall
  loopInvocations : Nat
deriving Repr

/-- The `while self.running && result.is_ok()` loop of `Runtime::run_with`:
each iteration issues `sys::begin_frame()`, invokes the callback, then
issues `sys::end_frame()`. Fuel-indexed; `none` means the fuel ran out
while the loop still wanted to continue. -/
def runLoop (cb : Callback σ) : Nat → Runtime → σ → Except IoError Unit →
    Option (RunResult σ)
  | 0, r, s, res =>
      if r.running && resultIsOk res then none else some ⟨r, s, res, [], 0⟩
  | fuel + 1, r, s, res =>
      if r.running && resultIsOk res then
        let step := cb r s
        match runLoop cb fuel step.1 step.2.1 step.2.2 with
        | none => none
        | some out =>
            some ⟨out.runtime, out.state, out.result,
                  SysCall.beginFrame :: SysCall.endFrame :: out.calls,
                  out.loopInvocations + 1⟩
      else
        some ⟨r, s, res, [], 0⟩

/-- `Runtime::run_with`: set `running = true`, invoke the callback once
unconditionally, then run the frame loop. -/
def Runtime.runWith (r : Runtime) (cb : Callback σ) (s : σ) (fuel : Nat) :
    Option (RunResult σ) :=
  let r1 : Runtime := { r with running := true }
  let first := cb r1 s
  runLoop cb fuel first.1 first.2.1 first.2.2

/-- `impl Drop for Runtime`: query `sys::is_video_ready`; if live, call
`sys::close_video`. Returns the subsystem state afterwards and the trace. -/
def Runtime.drop (sys : SysState) : SysState × List SysCall :=
  if sys.videoLive then
    ({ videoLive := false }, [SysCall.isVideoReady, SysCall.closeVideo])
  else
    (sys, [SysCall.isVideoReady])

/-! ## Embedding of `src/context.rs`

`context.rs` is a second module of the crate whose code is, apart from
the names `Context`/`context` for `Runtime`/`runtime` and documentation
text, line-for-line the code of `runtime.rs`. It is embedded separately
(inside namespace `Ctx`) so that its behavioural equivalence with the
`Runtime` module is a provable statement rather than an assumption. -/

namespace Ctx

/-- `src/context.rs`: `pub struct Builder { title: String, enable_video: bool }`. -/
structure Builder where
  title : String
  enable_video : Bool
deriving DecidableEq, Repr

/-- `src/context.rs`: `pub struct Context { running: bool }`. -/
structure Context where
  running : Bool
deriving DecidableEq, Repr

/-- `context::Builder::new`. -/
def Builder.new : Builder :=
  { title := "", enable_video := false }

/-- `context::Builder::title`. -/
def Builder.setTitle (b : Builder) (t : String) : Builder :=
  { b with title := t }

/-- `context::Builder::enable_video`. -/
def Builder.enableVideo (b : Builder) : Builder :=
  { b with enable_video := true }

/-- `context::Builder::build`. -/
def Builder.build (b : Builder) (sys : SysState) (initOutcome : Bool) :
    Except IoError Context × SysState × List SysCall :=
  if b.enable_video then
    if hasNulByte b.title then
      (Except.error nulError, sys, [])
    else
      let sys1 : SysState := { videoLive := initOutcome }
      let is_ready := sys1.videoLive
      let calls := [SysCall.initVideo 0 0 b.title, SysCall.isVideoReady]
      if is_ready then
        (Except.ok { running := false }, sys1, calls)
      else
        (Except.error initFailure, sys1, calls)
  else
    (Except.ok { running := false }, sys, [])

/-- `Context::new`. -/
def Context.new : Context :=
  { running := false }

/-- `Context::shutdown`. -/
def Context.shutdown (c : Context) : Context :=
  { c with running := false }

/-- A per-tick callback for the context module. -/
def Callback (σ : Type) : Type :=
  Context → σ → Context × σ × Except IoError Unit

/-- Outcome of `Context::run_with`, as for the runtime module. -/
structure RunResult (σ : Type) where
  context : Context
  state : σ
  result : Except IoError Unit
  calls : List SysCall
  loopInvocations : Nat
deriving Repr

/-- The `while` loop of `Context::run_with`. -/
def runLoop (cb : Callback σ) : Nat → Context → σ → Except IoError Unit →
    Option (RunResult σ)
  | 0, c, s, res =>
      if c.running && resultIsOk res then none else some ⟨c, s, res, [], 0⟩
  | fuel + 1, c, s, res =>
      if c.running && resultIsOk res then
        let step := cb c s
        match runLoop cb fuel step.1 step.2.1 step.2.2 with
        | none => none
        | some out =>
            some ⟨out.context, out.state, out.result,
                  SysCall.beginFrame :: SysCall.endFrame :: out.calls,
                  out.loopInvocations + 1⟩
      else
        some ⟨c, s, res, [], 0⟩

/-- `Context::run_with`. -/
def Context.runWith (c : Context) (cb : Callback σ) (s : σ) (fuel : Nat) :
    Option (RunResult σ) :=
  let c1 : Context := { c with running := true }
  let first := cb c1 s
  runLoop cb fuel first.1 first.2.1 first.2.2

/-- `impl Drop for Context`. -/
def Context.drop (sys : SysState) : SysState × List SysCall :=
  if sys.videoLive then
    ({ videoLive := false }, [SysCall.isVideoReady, SysCall.closeVideo])
  else
    (sys, [SysCall.isVideoReady])

end Ctx

/-! ## Correspondence maps between the two modules -/

/-- View a `Context` as a `Runtime` (both are one `running` bit). -/
def Ctx.Context.toRuntime (c : Ctx.Context) : Runtime :=
  { running := c.running }

/-- View a `Runtime` as a `Context`. -/
def Runtime.toContext (r : Runtime) : Ctx.Context :=
  { running := r.running }

/-- View a context-module builder as a runtime-module builder. -/
def ctxBuilderToRuntime (b : Ctx.Builder) : Builder :=
  { title := b.title, enable_video := b.enable_video }

/-- Transport a runtime callback to a context callback. -/
def Callback.toCtx (cb : Callback σ) : Ctx.Callback σ :=
  fun c s =>
    let out := cb c.toRuntime s
    (out.1.toContext, out.2.1, out.2.2)

/-- Transport a context-module build result to the runtime module's types. -/
def Ctx.buildResultToRuntime
    (p : Except IoError Ctx.Context × SysState × List SysCall) :
    Except IoError Runtime × SysState × List SysCall :=
  (p.1.map Ctx.Context.toRuntime, p.2.1, p.2.2)

/-- Transport a context-module run outcome to the runtime module's types. -/
def ctxRunResultToRuntime (out : Ctx.RunResult σ) : RunResult σ :=
  ⟨out.context.toRuntime, out.state, out.result, out.calls, out.loopInvocations⟩

/-! ## Helper lemmas about the run loop -/

/-- If the loop condition `running && result.is_ok()` is false, the loop
exits immediately with the given state, no subsystem calls and no further
callback invocations, whatever the fuel. -/
theorem runLoop_exit {σ : Type} (cb : Callback σ) (fuel : Nat) (r : Runtime)
    (s : σ) (res : Except IoError Unit)
    (h : (r.running && resultIsOk res) = false) :
    runLoop cb fuel r s res = some ⟨r, s, res, [], 0⟩ := by
  cases fuel <;> simp [runLoop, h]

/-- Whenever the loop returns, its exit condition holds: it is not the
case that `running` is still true and the final result is a success. -/
theorem runLoop_post {σ : Type} (cb : Callback σ) :
    ∀ (fuel : Nat) (r : Runtime) (s : σ) (res : Except IoError Unit)
      (out : RunResult σ),
    runLoop cb fuel r s res = some out →
    (out.runtime.running && resultIsOk out.result) = false := by
  intro fuel
  induction fuel with
  | zero =>
    intro r s res out h
    simp only [runLoop] at h
    split at h
    · exact Option.noConfusion h
    · cases h
      simp_all
  | succ n ih =>
    intro r s res out h
    simp only [runLoop] at h
    split at h
    · cases hrec : runLoop cb n (cb r s).1 (cb r s).2.1 (cb r s).2.2 with
      | none => rw [hrec] at h; exact Option.noConfusion h
      | some out1 =>
        rw [hrec] at h
        cases h
        exact ih _ _ _ out1 hrec
    · cases h
      simp_all

/-- Whenever the loop returns, its subsystem-call trace is exactly one
begin-frame/end-frame pair per callback invocation performed inside the
loop body. -/
theorem runLoop_calls {σ : Type} (cb : Callback σ) :
    ∀ (fuel : Nat) (r : Runtime) (s : σ) (res : Except IoError Unit)
      (out : RunResult σ),
    runLoop cb fuel r s res = some out →
    out.calls = List.flatten (List.replicate out.loopInvocations
      [SysCall.beginFrame, SysCall.endFrame]) := by
  intro fuel
  induction fuel with
  | zero =>
    intro r s res out h
    simp only [runLoop] at h
    split at h
    · exact Option.noConfusion h
    · cases h
      simp
  | succ n ih =>
    intro r s res out h
    simp only [runLoop] at h
    split at h
    · cases hrec : runLoop cb n (cb r s).1 (cb r s).2.1 (cb r s).2.2 with
      | none => rw [hrec] at h; exact Option.noConfusion h
      | some out1 =>
        rw [hrec] at h
        cases h
        simp [List.replicate_succ, ih _ _ _ out1 hrec]
    · cases h
      simp

/-! ## Claims -/

/-- C1 (counterexample): a Runtime built without the video subsystem,
driven by a callback that requests shutdown only on its second
invocation, still issues a begin-frame and an end-frame hook around the
loop-body invocation — the hooks are not conditioned on video having been
enabled at build time, refuting the claim that no hook call reaches the
external subsystem in that case. -/
theorem C1_counterexample :
    (Builder.new.build { videoLive := false } false).1
      = Except.ok { running := false } ∧
    Runtime.runWith { running := false }
      (fun r n => if n = 0 then (r, 1, Except.ok ())
                  else (r.shutdown, n + 1, Except.ok ()))
      (0 : Nat) 1
      = some ⟨{ running := false }, 2, Except.ok (),
              [SysCall.beginFrame, SysCall.endFrame], 1⟩ ∧
    SysCall.beginFrame ∈ [SysCall.beginFrame, SysCall.endFrame] := by
  refine ⟨rfl, rfl, ?_⟩
  simp

/-- C1 (amended): in `run_with`, frame-boundary hooks are issued
unconditionally — whether or not video was enabled at build time, every
callback invocation inside the loop body is bracketed by exactly one
begin-frame and one end-frame hook (the unconditional first invocation is
the only one executed without hooks). -/
theorem C1_hooks_wrap_every_loop_tick {σ : Type} (cb : Callback σ)
    (r : Runtime) (s : σ) (fuel : Nat) (out : RunResult σ)
    (h : Runtime.runWith r cb s fuel = some out) :
    out.calls = List.flatten (List.replicate out.loopInvocations
      [SysCall.beginFrame, SysCall.endFrame]) := by
  exact runLoop_calls cb fuel _ _ _ out h

/-- Witness for C1's amended theorem at a concrete run: the two-tick run
from the counterexample scenario has trace = one begin/end pair. -/
theorem C1_hooks_wrap_every_loop_tick_witness :
    ([SysCall.beginFrame, SysCall.endFrame] : List SysCall)
      = List.flatten (List.replicate 1 [SysCall.beginFrame, SysCall.endFrame]) :=
  C1_hooks_wrap_every_loop_tick
    (fun r n => if n = 0 then (r, 1, Except.ok ())
                else (r.shutdown, n + 1, Except.ok ()))
    { running := false } (0 : Nat) 1
    ⟨{ running := false }, 2, Except.ok (),
     [SysCall.beginFrame, SysCall.endFrame], 1⟩ (by rfl)

/-- C2 (counterexample): a callback that reports a failure on its first
invocation without requesting shutdown makes `run_with` return with
`running` still true — refuting the claim that `running` is false after
`run_with` returns regardless of whether the exit came from shutdown or
from a callback-reported failure. -/
theorem C2_counterexample :
    Runtime.runWith { running := false }
      (fun r s => (r, s, Except.error { kind := ErrorKind.other, msg := "boom" }))
      () 0
      = some ⟨{ running := true }, (),
              Except.error { kind := ErrorKind.other, msg := "boom" }, [], 0⟩ ∧
    (({ running := true } : Runtime)).running = true :=
  ⟨rfl, rfl⟩

/-- C2 (amended): `running` is false before the first loop-driving call
(`Runtime::new` starts with `running = false`), and after `run_with`
returns a success the flag is false; after an exit caused by a
callback-reported failure the flag keeps whatever value the callback left
in it (true unless the callback also requested shutdown). -/
theorem C2_running_false_on_success_exit {σ : Type} (cb : Callback σ)
    (r : Runtime) (s : σ) (fuel : Nat) (out : RunResult σ)
    (h : Runtime.runWith r cb s fuel = some out)
    (hok : out.result = Except.ok ()) :
    Runtime.new.running = false ∧ out.runtime.running = false := by
  refine ⟨rfl, ?_⟩
  have hpost := runLoop_post cb fuel _ _ _ out h
  rw [hok] at hpost
  simpa [resultIsOk] using hpost

/-- Witness for C2's amended theorem: a single-tick shutdown run ends
with `running = false`. -/
theorem C2_running_false_on_success_exit_witness :
    Runtime.new.running = false ∧
    (⟨{ running := false }, (), Except.ok (), [], 0⟩ : RunResult Unit).runtime.running
      = false :=
  C2_running_false_on_success_exit
    (fun rt st => (rt.shutdown, st, Except.ok ()))
    { running := false } () 0
    ⟨{ running := false }, (), Except.ok (), [], 0⟩ rfl rfl

/-- C3: a callback that fails on its first invocation (given the runtime
with `running` just set to true) is invoked exactly once: `run_with`
performs zero loop-body invocations, issues no subsystem calls, and
returns that exact failure value unmodified. -/
theorem C3_failure_on_first_tick {σ : Type} (cb : Callback σ) (r : Runtime)
    (s : σ) (r1 : Runtime) (s1 : σ) (e : IoError) (fuel : Nat)
    (h : cb { running := true } s = (r1, s1, Except.error e)) :
    Runtime.runWith r cb s fuel = some ⟨r1, s1, Except.error e, [], 0⟩ := by
  have key : Runtime.runWith r cb s fuel
      = runLoop cb fuel (cb { running := true } s).1
          (cb { running := true } s).2.1 (cb { running := true } s).2.2 := rfl
  rw [key, h]
  exact runLoop_exit cb fuel r1 s1 (Except.error e) (by simp [resultIsOk])

/-- Witness for C3 with a concrete always-failing callback. -/
theorem C3_failure_on_first_tick_witness :
    Runtime.runWith { running := false }
      (fun rt st => (rt, st, Except.error { kind := ErrorKind.other, msg := "fail" }))
      () 5
      = some ⟨{ running := true }, (),
              Except.error { kind := ErrorKind.other, msg := "fail" }, [], 0⟩ :=
  C3_failure_on_first_tick
    (fun rt st => (rt, st, Except.error { kind := ErrorKind.other, msg := "fail" }))
    { running := false } () { running := true } ()
    { kind := ErrorKind.other, msg := "fail" } 5 rfl

/-- C4: `run_with` with the callback `|ctx| { ctx.shutdown(); Ok(()) }`
performs exactly one callback invocation (zero loop-body invocations),
issues no frame-boundary hook, returns success, and leaves
`running = false`. -/
theorem C4_immediate_shutdown {σ : Type} (r : Runtime) (s : σ) (fuel : Nat) :
    Runtime.runWith r (fun rt st => (rt.shutdown, st, Except.ok ())) s fuel
      = some ⟨{ running := false }, s, Except.ok (), [], 0⟩ := by
  unfold Runtime.runWith
  exact runLoop_exit _ fuel _ _ _ (by simp [Runtime.shutdown, resultIsOk])

/-- C5: with video enabled, a title containing an embedded null byte
makes `build` fail with the `CString` conversion error (the spec's
`InvalidConfiguration`, kind `InvalidInput`), and the subsystem-call
trace is empty: in particular the initialization entry point was never
invoked. -/
theorem C5_nul_title_rejected (title : String) (sys : SysState) (o : Bool)
    (h : hasNulByte title = true) :
    Builder.build { title := title, enable_video := true } sys o
      = (Except.error nulError, sys, []) ∧
    nulError.kind = ErrorKind.invalidInput ∧
    SysCall.initVideo 0 0 title ∉
      (Builder.build { title := title, enable_video := true } sys o).2.2 := by
  have hb : Builder.build { title := title, enable_video := true } sys o
      = (Except.error nulError, sys, []) := by
    simp [Builder.build, h]
  refine ⟨hb, rfl, ?_⟩
  rw [hb]
  simp

/-- Witness for C5 at the concrete title "a\x00b". -/
theorem C5_nul_title_rejected_witness :
    hasNulByte "a\x00b" = true ∧
    (Builder.build { title := "a\x00b", enable_video := true }
        { videoLive := false } true
      = (Except.error nulError, { videoLive := false }, []) ∧
    nulError.kind = ErrorKind.invalidInput ∧
    SysCall.initVideo 0 0 "a\x00b" ∉
      (Builder.build { title := "a\x00b", enable_video := true }
          { videoLive := false } true).2.2) :=
  ⟨by rfl, C5_nul_title_rejected "a\x00b" { videoLive := false } true (by rfl)⟩

/-- C6: with video enabled and a valid (null-free) title, `build` calls
the initialization entry point and queries readiness; if the subsystem
reports not-ready it fails with the error
"Unable to initialize video driver" (kind `Other`) and produces no
Runtime, and if it reports ready it returns `Runtime { running: false }`. -/
theorem C6_video_build_outcomes (title : String) (sys : SysState)
    (h : hasNulByte title = false) :
    Builder.build { title := title, enable_video := true } sys false
      = (Except.error initFailure, { videoLive := false },
         [SysCall.initVideo 0 0 title, SysCall.isVideoReady]) ∧
    initFailure.msg = "Unable to initialize video driver" ∧
    Builder.build { title := title, enable_video := true } sys true
      = (Except.ok { running := false }, { videoLive := true },
         [SysCall.initVideo 0 0 title, SysCall.isVideoReady]) := by
  refine ⟨?_, rfl, ?_⟩ <;> simp [Builder.build, h]

/-- Witness for C6 at the concrete title "demo". -/
theorem C6_video_build_outcomes_witness :
    Builder.build { title := "demo", enable_video := true }
        { videoLive := false } false
      = (Except.error initFailure, { videoLive := false },
         [SysCall.initVideo 0 0 "demo", SysCall.isVideoReady]) ∧
    initFailure.msg = "Unable to initialize video driver" ∧
    Builder.build { title := "demo", enable_video := true }
        { videoLive := false } true
      = (Except.ok { running := false }, { videoLive := true },
         [SysCall.initVideo 0 0 "demo", SysCall.isVideoReady]) :=
  C6_video_build_outcomes "demo" { videoLive := false } (by rfl)

/-- The counter callback of spec property P5: decrement the counter, and
request shutdown once it reaches zero. -/
def tickCb : Callback Nat :=
  fun r n =>
    let n1 := n - 1
    if n1 = 0 then (r.shutdown, n1, Except.ok ()) else (r, n1, Except.ok ())

/-- One unfolding of the loop when the condition holds and the remaining
iterations are known to return: the iteration contributes one
begin-frame/end-frame pair and one loop-body invocation. -/
theorem runLoop_succ_of_some {σ : Type} (cb : Callback σ) (fuel : Nat)
    (r : Runtime) (s : σ) (res : Except IoError Unit) (out : RunResult σ)
    (h : (r.running && resultIsOk res) = true)
    (hrec : runLoop cb fuel (cb r s).1 (cb r s).2.1 (cb r s).2.2 = some out) :
    runLoop cb (fuel + 1) r s res
      = some ⟨out.runtime, out.state, out.result,
              SysCall.beginFrame :: SysCall.endFrame :: out.calls,
              out.loopInvocations + 1⟩ := by
  simp [runLoop, h, hrec]

theorem runLoop_tickCb (m : Nat) :
    ∀ fuel : Nat, m + 1 ≤ fuel →
    runLoop tickCb fuel { running := true } (m + 1) (Except.ok ())
      = some ⟨{ running := false }, 0, Except.ok (),
              List.flatten (List.replicate (m + 1)
                [SysCall.beginFrame, SysCall.endFrame]),
              m + 1⟩ := by
  induction m with
  | zero =>
    intro fuel hf
    match fuel, hf with
    | f + 1, _ =>
      rw [runLoop_succ_of_some tickCb f { running := true } 1 (Except.ok ())
            ⟨{ running := false }, 0, Except.ok (), [], 0⟩ (by rfl)
            (by exact runLoop_exit tickCb f _ _ _ (by rfl))]
      simp [List.replicate_succ]
  | succ k ih =>
    intro fuel hf
    match fuel, hf with
    | f + 1, hf =>
      rw [runLoop_succ_of_some tickCb f { running := true } (k + 1 + 1) (Except.ok ())
            ⟨{ running := false }, 0, Except.ok (),
             List.flatten (List.replicate (k + 1)
               [SysCall.beginFrame, SysCall.endFrame]), k + 1⟩
            (by rfl) (by exact ih f (by omega))]
      simp [List.replicate_succ]

/-- C7: starting the counter callback at `N ≥ 1`, `run_with` performs
exactly `N` callback invocations (one unconditional first call plus
`N - 1` loop-body calls) and returns success with the counter at zero and
`running = false`. -/
theorem C7_n_tick_loop (N : Nat) (r : Runtime) (hN : 1 ≤ N) (fuel : Nat)
    (hf : N - 1 ≤ fuel) :
    (Runtime.runWith r tickCb N fuel
      = some ⟨{ running := false }, 0, Except.ok (),
              List.flatten (List.replicate (N - 1)
                [SysCall.beginFrame, SysCall.endFrame]),
              N - 1⟩) ∧
    1 + (N - 1) = N := by
  refine ⟨?_, by omega⟩
  match N, hN with
  | 1, _ =>
    have key : Runtime.runWith r tickCb 1 fuel
        = runLoop tickCb fuel (tickCb { running := true } 1).1
            (tickCb { running := true } 1).2.1
            (tickCb { running := true } 1).2.2 := rfl
    rw [key, runLoop_exit tickCb fuel _ _ _ (by rfl)]
    rfl
  | m + 2, _ =>
    have key : Runtime.runWith r tickCb (m + 2) fuel
        = runLoop tickCb fuel (tickCb { running := true } (m + 2)).1
            (tickCb { running := true } (m + 2)).2.1
            (tickCb { running := true } (m + 2)).2.2 := rfl
    rw [key]
    exact runLoop_tickCb m fuel (by omega)

/-- Witness for C7 at `N = 3`: three invocations, then success. -/
theorem C7_n_tick_loop_witness :
    (Runtime.runWith { running := false } tickCb 3 2
      = some ⟨{ running := false }, 0, Except.ok (),
              List.flatten (List.replicate (3 - 1)
                [SysCall.beginFrame, SysCall.endFrame]),
              3 - 1⟩) ∧
    1 + (3 - 1) = 3 :=
  C7_n_tick_loop 3 { running := false } (by decide) 2 (by decide)

/-- C8: building with video disabled touches the subsystem not at all
(its state stays not-live and the build trace is empty), and dropping the
resulting Runtime only performs the liveness query, which reports
not-live, so the close step is skipped and nothing fails. -/
theorem C8_drop_without_video (title : String) (sys : SysState) (o : Bool)
    (h : sys.videoLive = false) :
    Builder.build { title := title, enable_video := false } sys o
      = (Except.ok { running := false }, sys, []) ∧
    Runtime.drop sys = (sys, [SysCall.isVideoReady]) ∧
    SysCall.closeVideo ∉ (Runtime.drop sys).2 := by
  have hd : Runtime.drop sys = (sys, [SysCall.isVideoReady]) := by
    simp [Runtime.drop, h]
  refine ⟨rfl, hd, ?_⟩
  rw [hd]
  simp

/-- Witness for C8 at the default builder configuration. -/
theorem C8_drop_without_video_witness :
    Builder.build { title := "", enable_video := false }
        { videoLive := false } false
      = (Except.ok { running := false }, { videoLive := false }, []) ∧
    Runtime.drop { videoLive := false }
      = ({ videoLive := false }, [SysCall.isVideoReady]) ∧
    SysCall.closeVideo ∉ (Runtime.drop { videoLive := false }).2 :=
  C8_drop_without_video "" { videoLive := false } false rfl

/-- C9: with video disabled, `build` succeeds for every title — including
titles containing embedded null bytes — returning `Runtime { running: false }`
with no subsystem calls: the `CString` null-byte validation sits inside
the `enable_video` branch and is skipped entirely otherwise. -/
theorem C9_build_without_video_always_succeeds (title : String)
    (sys : SysState) (o : Bool) :
    Builder.build (Builder.new.setTitle title) sys o
      = (Except.ok { running := false }, sys, []) := rfl

/-- The context module's loop agrees with the runtime module's loop:
transporting the outcome along the one-field correspondence gives the
same result for every fuel, flag, state and pending result. -/
theorem ctx_runLoop_equiv {σ : Type} (cb : Callback σ) :
    ∀ (fuel : Nat) (b : Bool) (s : σ) (res : Except IoError Unit),
    Option.map ctxRunResultToRuntime
      (Ctx.runLoop (Callback.toCtx cb) fuel { running := b } s res)
      = runLoop cb fuel { running := b } s res := by
  intro fuel
  induction fuel with
  | zero =>
    intro b s res
    by_cases hc : (b && resultIsOk res) = true
    · simp [Ctx.runLoop, runLoop, hc]
    · simp [Ctx.runLoop, runLoop, hc, ctxRunResultToRuntime,
            Ctx.Context.toRuntime]
  | succ n ih =>
    intro b s res
    by_cases hc : (b && resultIsOk res) = true
    · have hstep : Callback.toCtx cb { running := b } s
          = (⟨(cb { running := b } s).1.running⟩,
             (cb { running := b } s).2.1, (cb { running := b } s).2.2) := rfl
      have hIH := ih (cb { running := b } s).1.running
        (cb { running := b } s).2.1 (cb { running := b } s).2.2
      have heta : ({ running := (cb { running := b } s).1.running } : Runtime)
          = (cb { running := b } s).1 := rfl
      rw [heta] at hIH
      simp only [Ctx.runLoop, runLoop, hstep, hc]
      cases hrec : Ctx.runLoop (Callback.toCtx cb) n
          ⟨(cb { running := b } s).1.running⟩
          (cb { running := b } s).2.1 (cb { running := b } s).2.2 with
      | none =>
        rw [hrec] at hIH
        simp only [Option.map_none'] at hIH
        rw [← hIH]
        simp
      | some out1 =>
        rw [hrec] at hIH
        simp only [Option.map_some'] at hIH
        rw [← hIH]
        simp [ctxRunResultToRuntime]
    · simp [Ctx.runLoop, runLoop, hc, ctxRunResultToRuntime,
            Ctx.Context.toRuntime]

/-- `Context::run_with` agrees with `Runtime::run_with` along the
correspondence, for every callback, start state and fuel. -/
theorem ctx_runWith_equiv {σ : Type} (cb : Callback σ) (c : Ctx.Context)
    (s : σ) (fuel : Nat) :
    Option.map ctxRunResultToRuntime
      (Ctx.Context.runWith c (Callback.toCtx cb) s fuel)
      = Runtime.runWith c.toRuntime cb s fuel := by
  have key1 : Ctx.Context.runWith c (Callback.toCtx cb) s fuel
      = Ctx.runLoop (Callback.toCtx cb) fuel
          (Callback.toCtx cb { running := true } s).1
          (Callback.toCtx cb { running := true } s).2.1
          (Callback.toCtx cb { running := true } s).2.2 := rfl
  have key2 : Runtime.runWith c.toRuntime cb s fuel
      = runLoop cb fuel (cb { running := true } s).1
          (cb { running := true } s).2.1 (cb { running := true } s).2.2 := rfl
  have hstep : Callback.toCtx cb { running := true } s
      = (⟨(cb { running := true } s).1.running⟩,
         (cb { running := true } s).2.1, (cb { running := true } s).2.2) := rfl
  have heta : ({ running := (cb { running := true } s).1.running } : Runtime)
      = (cb { running := true } s).1 := rfl
  have hmain := ctx_runLoop_equiv cb fuel (cb { running := true } s).1.running
    (cb { running := true } s).2.1 (cb { running := true } s).2.2
  rw [heta] at hmain
  rw [key1, key2, hstep]
  simpa using hmain

/-- C10: the context module and the runtime module are behaviorally
identical. Along the one-field correspondences, `Builder::new`, the title
setter, `enable_video`, `build` (results, subsystem state and call trace),
`new`, `shutdown`, `run_with` (for every callback, state and fuel) and
`Drop` all agree between `src/context.rs` and `src/runtime.rs`. -/
theorem C10_context_runtime_equiv :
    ctxBuilderToRuntime Ctx.Builder.new = Builder.new ∧
    (∀ (b : Ctx.Builder) (t : String),
      ctxBuilderToRuntime (b.setTitle t) = (ctxBuilderToRuntime b).setTitle t) ∧
    (∀ b : Ctx.Builder,
      ctxBuilderToRuntime b.enableVideo = (ctxBuilderToRuntime b).enableVideo) ∧
    (∀ (b : Ctx.Builder) (sys : SysState) (o : Bool),
      Ctx.buildResultToRuntime (b.build sys o)
        = (ctxBuilderToRuntime b).build sys o) ∧
    Ctx.Context.new.toRuntime = Runtime.new ∧
    (∀ c : Ctx.Context, c.shutdown.toRuntime = c.toRuntime.shutdown) ∧
    (∀ (σ : Type) (cb : Callback σ) (c : Ctx.Context) (s : σ) (fuel : Nat),
      Option.map ctxRunResultToRuntime (c.runWith (Callback.toCtx cb) s fuel)
        = c.toRuntime.runWith cb s fuel) ∧
    (∀ sys : SysState, Ctx.Context.drop sys = Runtime.drop sys) := by
  refine ⟨rfl, fun b t => rfl, fun b => rfl, ?_, rfl, fun c => rfl,
          fun σ cb c s fuel => ctx_runWith_equiv cb c s fuel, fun sys => rfl⟩
  intro b sys o
  by_cases hv : b.enable_video = true
  · by_cases hn : hasNulByte b.title = true
    · simp [Ctx.Builder.build, Builder.build, ctxBuilderToRuntime,
            Ctx.buildResultToRuntime, hv, hn, Except.map]
    · cases o <;>
        simp [Ctx.Builder.build, Builder.build, ctxBuilderToRuntime,
              Ctx.buildResultToRuntime, Ctx.Context.toRuntime, hv, hn, Except.map]
  · simp [Ctx.Builder.build, Builder.build, ctxBuilderToRuntime,
          Ctx.buildResultToRuntime, Ctx.Context.toRuntime, hv, Except.map]
